import Mathlib

/-
Shallow embedding of the vote-integrity subsystem of the song-voter
repository (src/app.py and src/database.py), with theorems settling the
frozen claims about it.

Modelling conventions:
* Timestamps (`time.time()`, `datetime` values) are modelled as integer
  seconds (`ℤ`).  The sliding-window logic is uniform in the time domain,
  and on integer times Python's `int()` truncation of the retry value is
  the identity, so `max(1, int(x))` is modelled as `max 1 x`.
* Ratings are rationals (`ℚ`): the JSON payload may carry a non-integer
  number, and the endpoint compares it with `<`/`>` directly.
* The one irrational-valued computation (`math.sqrt` in the aggregation
  engine) is modelled with `Real.sqrt`; Python's float arithmetic is
  modelled as exact real/rational arithmetic.
* Python truthiness of optional strings / ints is modelled explicitly
  (`None` and `""` are falsy for strings, `None` and `0` for ids).
* The `md5` hex digest used for "ip"-mode voter identities is kept
  abstract: the functions that use it take `md5 : String → String` as an
  explicit argument.
* The SQLite store is a record of lists; the settings table is an
  association list and `get_setting` applies the caller-supplied default.
-/

namespace SongVoter

/-! ### Rate limiter (src/app.py, class VoteRateLimiter) -/

/-- State of `VoteRateLimiter`: `votes` is the insertion-ordered dict
`{ip: [timestamps]}` plus the three configuration fields. -/
structure RateLimiter where
  votes : List (String × List ℤ)
  max_votes : ℕ
  window_secs : ℤ
  max_ips : ℕ
deriving DecidableEq

/-- The `VoteRateLimiter.__init__` constructor (fresh empty dict). -/
def mkVoteRateLimiter (max_votes : ℕ) (window_secs : ℤ) (max_ips : ℕ) : RateLimiter :=
  ⟨[], max_votes, window_secs, max_ips⟩

/-- The global `vote_limiter = VoteRateLimiter(max_votes=30, window_secs=300, max_ips=10000)`. -/
def vote_limiter : RateLimiter := mkVoteRateLimiter 30 300 10000

/-- Dict lookup on the insertion-ordered association list. -/
def lookupIp : List (String × List ℤ) → String → Option (List ℤ)
  | [], _ => none
  | (k, v) :: rest, ip => if k = ip then some v else lookupIp rest ip

/-- Dict assignment `d[ip] = l`: replaces in place, appends at the end for a
new key (Python dicts preserve insertion order). -/
def setIp : List (String × List ℤ) → String → List ℤ → List (String × List ℤ)
  | [], ip, l => [(ip, l)]
  | (k, v) :: rest, ip, l => if k = ip then (ip, l) :: rest else (k, v) :: setIp rest ip l

/-- Dict deletion `del d[ip]`. -/
def removeIp : List (String × List ℤ) → String → List (String × List ℤ)
  | [], _ => []
  | (k, v) :: rest, ip => if k = ip then rest else (k, v) :: removeIp rest ip

/-- The key function of `_evict_oldest`'s sort:
`min(self.votes[ip]) if self.votes[ip] else 0`. -/
def minKey : List ℤ → ℤ
  | [] => 0
  | t :: ts => ts.foldl min t

/-- Stable insertion into a list sorted by `key` (Python's `sorted` is stable). -/
def insertByKey (key : String → ℤ) (x : String) : List String → List String
  | [] => [x]
  | y :: ys => if key x ≤ key y then x :: y :: ys else y :: insertByKey key x ys

/-- Stable sort by `key`, modelling `sorted(keys, key=...)`. -/
def sortByKey (key : String → ℤ) : List String → List String
  | [] => []
  | x :: xs => insertByKey key x (sortByKey key xs)

/-- The deletion loop of `_evict_oldest`: drop every entry whose key is
among the doomed IPs. -/
def keyFilter (doomed : List String) (l : List (String × List ℤ)) :
    List (String × List ℤ) :=
  l.filter (fun p => decide (p.1 ∉ doomed))

/-- `VoteRateLimiter._evict_oldest(count)`: sort IPs by their oldest
timestamp and delete the first `count` of them. -/
def RateLimiter.evictOldest (st : RateLimiter) (count : ℕ) : RateLimiter :=
  if st.votes.isEmpty then st
  else
    let key := fun ip => match lookupIp st.votes ip with
      | some l => minKey l
      | none => 0
    let sorted_ips := sortByKey key (st.votes.map Prod.fst)
    let doomed := sorted_ips.take count
    { st with votes := keyFilter doomed st.votes }

/-- The eviction phase at the top of `check`: evict a quarter of the tracked
IPs when the dict is over `max_ips` (`int(self.max_ips * 0.25)` is exact
float arithmetic, hence `max_ips / 4`). -/
def RateLimiter.evictPhase (st : RateLimiter) : RateLimiter :=
  if st.max_ips < st.votes.length then st.evictOldest (st.max_ips / 4) else st

/-- Timestamps surviving the per-IP cleanup `[t for t in ... if now - t < window]`. -/
def pruneList (l : List ℤ) (now window : ℤ) : List ℤ :=
  l.filter (fun t => decide (now - t < window))

/-- `VoteRateLimiter.check` after its eviction phase: clean this IP's old
timestamps, reject when `max_votes` remain in the window, otherwise record
`now`.  Returns `(allowed, retry_after, new state)`. -/
def RateLimiter.checkPruned (st : RateLimiter) (ip : String) (now : ℤ) :
    Bool × ℤ × RateLimiter :=
  match lookupIp st.votes ip with
  | none =>
      (true, 0, { st with votes := setIp st.votes ip [now] })
  | some l =>
      match pruneList l now st.window_secs with
      | [] =>
          (true, 0, { st with votes := setIp (removeIp st.votes ip) ip [now] })
      | t0 :: rest =>
          if st.max_votes ≤ (t0 :: rest).length then
            (false, max 1 (st.window_secs - (now - t0)),
             { st with votes := setIp st.votes ip (t0 :: rest) })
          else
            (true, 0, { st with votes := setIp st.votes ip ((t0 :: rest) ++ [now]) })

/-- `VoteRateLimiter.check(ip)` (src/app.py lines 33-54). -/
def RateLimiter.check (st : RateLimiter) (ip : String) (now : ℤ) :
    Bool × ℤ × RateLimiter :=
  (st.evictPhase).checkPruned ip now

/-- A sequence of `check` calls for one IP at the given times, returning the
final state and the per-call `(allowed, retry_after)` results. -/
def runSeq (st : RateLimiter) (ip : String) : List ℤ → RateLimiter × List (Bool × ℤ)
  | [] => (st, [])
  | t :: ts =>
    let r := st.check ip t
    let rest := runSeq r.2.2 ip ts
    (rest.1, (r.1, r.2.1) :: rest.2)

/-! ### Database layer (src/database.py) -/

/-- A row of the `votes` table as `add_vote` inserts it. -/
structure VoteRecord where
  song_id : ℕ
  thumbs_up : Option Bool
  rating : Option ℚ
  voter_id : Option String
  block_id : Option ℕ
deriving DecidableEq

/-- A row of the `vote_blocks` table (the columns the voting path reads).
`expires_at` is modelled as an already-parsed timestamp (`NULL`/empty as
`none`); `one_time_use` is the 0/1 integer column as a `Bool`. -/
structure VoteBlock where
  id : ℕ
  password_hash : Option String
  expires_at : Option ℤ
  one_time_use : Bool
  voting_restriction : Option String
deriving DecidableEq

/-- The persistent store: song ids, vote blocks, the append-only `votes`
table, and the key-value `settings` table. -/
structure DB where
  songs : List ℕ
  blocks : List VoteBlock
  votes : List VoteRecord
  settings : List (String × String)
deriving DecidableEq

/-- `get_setting(key, default)`. -/
def get_setting (db : DB) (key default : String) : String :=
  (db.settings.lookup key).getD default

/-- `get_vote_block_by_id(block_id)`. -/
def get_vote_block_by_id (db : DB) (block_id : ℕ) : Option VoteBlock :=
  db.blocks.find? (fun b => b.id = block_id)

/-- Python truthiness of an optional string (`None` and `""` are falsy). -/
def strTruthy : Option String → Bool
  | none => false
  | some s => decide (s ≠ "")

/-- Python truthiness of an optional id (`None` and `0` are falsy). -/
def idTruthy : Option ℕ → Bool
  | none => false
  | some n => decide (n ≠ 0)

/-- `is_block_expired(block)`: false when `expires_at` is unset, else
`now > expires_at`. -/
def is_block_expired (now : ℤ) (block : VoteBlock) : Bool :=
  match block.expires_at with
  | none => false
  | some e => e < now

/-- The JSON body of a vote request. -/
structure VotePayload where
  thumbs_up : Option Bool
  rating : Option ℚ
  block_id : Option ℕ
deriving DecidableEq

/-- The per-request context of a vote submission: `datetime.now()` /
`time.time()` as one clock, the session, the request headers and body, and
the `uuid4` value that would be generated for a fresh cookie identity. -/
structure Request where
  remote_addr : String
  cf_connecting_ip : Option String
  x_forwarded_for : Option String
  session_admin : Bool
  session_voter_id : Option String
  session_block_access : ℕ → Bool
  fresh_uuid : String
  body : Option VotePayload

/-- `get_voter_id(request)` (src/database.py lines 782-797).  Note that it
reads the GLOBAL `voting_restriction` setting, not any block override.
Returns the voter id and the possibly updated request session (the
"cookie" mode stores a fresh uuid in the session). -/
def get_voter_id (md5 : String → String) (db : DB) (req : Request) :
    Option String × Request :=
  let restriction := get_setting db "voting_restriction" "none"
  if restriction = "ip" then
    (some (md5 req.remote_addr), req)
  else if restriction = "cookie" then
    match req.session_voter_id with
    | some v => (some v, req)
    | none => (some req.fresh_uuid, { req with session_voter_id := some req.fresh_uuid })
  else
    (none, req)

/-- `has_voted(song_id, voter_id, block_id)` (src/database.py lines 800-819). -/
def has_voted (votes : List VoteRecord) (song_id : ℕ) (voter_id : Option String)
    (block_id : Option ℕ) : Bool :=
  if !strTruthy voter_id then false
  else if idTruthy block_id then
    votes.any (fun r =>
      decide (r.song_id = song_id ∧ r.voter_id = voter_id ∧ r.block_id = block_id))
  else
    votes.any (fun r => decide (r.song_id = song_id ∧ r.voter_id = voter_id))

/-- `has_voted_in_block(voter_id, block_id)` (src/database.py lines 1158-1171). -/
def has_voted_in_block (votes : List VoteRecord) (voter_id : Option String)
    (block_id : Option ℕ) : Bool :=
  if !strTruthy voter_id || !idTruthy block_id then false
  else
    votes.any (fun r => decide (r.voter_id = voter_id ∧ r.block_id = block_id))

/-- `add_vote(song_id, thumbs_up, rating, voter_id, block_id)`: append-only
insert into the `votes` table. -/
def add_vote (db : DB) (song_id : ℕ) (thumbs_up : Option Bool) (rating : Option ℚ)
    (voter_id : Option String) (block_id : Option ℕ) : DB :=
  { db with votes := db.votes ++ [⟨song_id, thumbs_up, rating, voter_id, block_id⟩] }

/-! ### The vote endpoint (src/app.py, `vote`, lines 507-603) -/

/-- Python `or` on strings: the left operand unless it is falsy (empty). -/
def strOr (a b : String) : String := if a = "" then b else a

/-- `request.headers.get('X-Forwarded-For', '').split(',')[0].strip()`. -/
def firstForwarded (header : Option String) : String :=
  (((header.getD "").splitOn ",").headD "").trim

/-- The client IP used for rate limiting (src/app.py line 513):
`CF-Connecting-IP` header, else first `X-Forwarded-For` entry, else
`request.remote_addr`. -/
def client_ip (req : Request) : String :=
  strOr (req.cf_connecting_ip.getD "")
    (strOr (firstForwarded req.x_forwarded_for) req.remote_addr)

/-- The outcome of a vote submission, one constructor per distinct
response of the endpoint. -/
inductive VoteOutcome where
  | rateLimited (retry_after : ℤ)
  | songNotFound
  | noJson
  | missingSignal
  | badRating
  | blockNotFound
  | blockExpired
  | notStarted
  | ended
  | alreadyVotedBlock
  | alreadyVotedSong
  | success
deriving DecidableEq

/-- What a vote submission produces: the response outcome and the new
store, rate-limiter and session states. -/
structure VoteOutput where
  outcome : VoteOutcome
  db : DB
  lim : RateLimiter
  req : Request

/-- The per-request clock and the `datetime.fromisoformat` parser
(`none` models a `ValueError`). -/
structure Ctx where
  now : ℤ
  parseIso : String → Option ℤ

/-- `rating is not None and (rating < 1 or rating > 10)`. -/
def ratingInvalid : Option ℚ → Bool
  | none => false
  | some r => decide (r < 1 ∨ 10 < r)

/-- The global voting-window "not started" test (src/app.py lines 557-563):
a set, parseable `voting_start` strictly in the future.  Unparseable or
empty values fail open. -/
def window_not_started (ctx : Ctx) (db : DB) : Bool :=
  let voting_start := get_setting db "voting_start" ""
  if voting_start = "" then false
  else match ctx.parseIso voting_start with
    | some s => decide (ctx.now < s)
    | none => false

/-- The global voting-window "ended" test (src/app.py lines 565-571). -/
def window_ended (ctx : Ctx) (db : DB) : Bool :=
  let voting_end := get_setting db "voting_end" ""
  if voting_end = "" then false
  else match ctx.parseIso voting_end with
    | some e => decide (e < ctx.now)
    | none => false

/-- The effective restriction mode of src/app.py lines 576-582:
the block's `voting_restriction` when truthy, else the global setting. -/
def effective_restriction (db : DB) (block : Option VoteBlock) : String :=
  match block with
  | some b =>
    match b.voting_restriction with
    | some s => if s = "" then get_setting db "voting_restriction" "none" else s
    | none => get_setting db "voting_restriction" "none"
  | none => get_setting db "voting_restriction" "none"

/-- `block and block.get('one_time_use')`. -/
def blockOneTime : Option VoteBlock → Bool
  | some b => b.one_time_use
  | none => false

/-- The restriction / duplicate-check / record tail of the endpoint
(src/app.py lines 573-600).  `block` is the looked-up vote block, if any. -/
def voteRestrict (md5 : String → String) (db : DB) (lim : RateLimiter)
    (req : Request) (song_id : ℕ) (data : VotePayload) (block : Option VoteBlock) :
    VoteOutput :=
  if req.session_admin then
    ⟨.success, add_vote db song_id data.thumbs_up data.rating none data.block_id, lim, req⟩
  else
    let restriction := effective_restriction db block
    let vr := if restriction ≠ "none" then get_voter_id md5 db req else (none, req)
    if blockOneTime block && strTruthy vr.1
        && has_voted_in_block db.votes vr.1 data.block_id then
      ⟨.alreadyVotedBlock, db, lim, vr.2⟩
    else if strTruthy vr.1 && has_voted db.votes song_id vr.1 data.block_id then
      ⟨.alreadyVotedSong, db, lim, vr.2⟩
    else
      ⟨.success, add_vote db song_id data.thumbs_up data.rating vr.1 data.block_id, lim, vr.2⟩

/-- The global voting-window stage (src/app.py lines 549-571): checked only
for non-admin, non-block votes; block votes are self-contained. -/
def voteWindow (md5 : String → String) (ctx : Ctx) (db : DB) (lim : RateLimiter)
    (req : Request) (song_id : ℕ) (data : VotePayload) (block : Option VoteBlock) :
    VoteOutput :=
  if !req.session_admin && !idTruthy data.block_id then
    if window_not_started ctx db then ⟨.notStarted, db, lim, req⟩
    else if window_ended ctx db then ⟨.ended, db, lim, req⟩
    else voteRestrict md5 db lim req song_id data block
  else voteRestrict md5 db lim req song_id data block

/-- The endpoint body after the rate-limit gate (src/app.py lines 520-600):
song lookup, payload validation, block lookup/expiry, then window,
restriction and record stages. -/
def voteChecked (md5 : String → String) (ctx : Ctx) (db : DB) (lim : RateLimiter)
    (req : Request) (song_id : ℕ) : VoteOutput :=
  if song_id ∈ db.songs then
    match req.body with
    | none => ⟨.noJson, db, lim, req⟩
    | some data =>
      if data.thumbs_up = none ∧ data.rating = none then ⟨.missingSignal, db, lim, req⟩
      else if ratingInvalid data.rating then ⟨.badRating, db, lim, req⟩
      else
        match data.block_id with
        | none => voteWindow md5 ctx db lim req song_id data none
        | some bid =>
          if bid = 0 then voteWindow md5 ctx db lim req song_id data none
          else
            match get_vote_block_by_id db bid with
            | none => ⟨.blockNotFound, db, lim, req⟩
            | some b =>
              if is_block_expired ctx.now b then ⟨.blockExpired, db, lim, req⟩
              else voteWindow md5 ctx db lim req song_id data (some b)
  else ⟨.songNotFound, db, lim, req⟩

/-- `vote(song_id)` (src/app.py lines 507-603): the rate-limit gate with
admin bypass, then the checked endpoint body. -/
def vote (md5 : String → String) (ctx : Ctx) (db : DB) (lim : RateLimiter)
    (req : Request) (song_id : ℕ) : VoteOutput :=
  if req.session_admin then
    voteChecked md5 ctx db lim req song_id
  else
    let r := lim.check (client_ip req) ctx.now
    if r.1 then voteChecked md5 ctx db r.2.2 req song_id
    else ⟨.rateLimited r.2.1, db, r.2.2, req⟩

/-! ### Aggregation engine (src/database.py, `get_all_results` lines 863-930
and `get_block_results` lines 1174-1242; both use the identical per-song
computation of lines 888-914 / 1200-1226).  `rows` is the list of vote rows
the join matches for one song. -/

/-- The non-null ratings among a song's matched vote rows. -/
def ratingsOf (rows : List VoteRecord) : List ℚ :=
  rows.filterMap (fun r => r.rating)

/-- SQL `AVG(v.rating)`: `NULL` when no row carries a rating. -/
def avgRating (rows : List VoteRecord) : Option ℚ :=
  if ratingsOf rows = [] then none
  else some ((ratingsOf rows).sum / (ratingsOf rows).length)

/-- SQL `AVG(v.rating * v.rating)`. -/
def avgRatingSq (rows : List VoteRecord) : Option ℚ :=
  if ratingsOf rows = [] then none
  else some (((ratingsOf rows).map (fun r => r * r)).sum / (ratingsOf rows).length)

/-- SQL `SUM(CASE WHEN v.thumbs_up = 1 THEN 1 ELSE 0 END)`. -/
def thumbsUpCount (rows : List VoteRecord) : ℕ :=
  (rows.filter (fun r => r.thumbs_up = some true)).length

/-- SQL `SUM(CASE WHEN v.thumbs_up = 0 THEN 1 ELSE 0 END)`. -/
def thumbsDownCount (rows : List VoteRecord) : ℕ :=
  (rows.filter (fun r => r.thumbs_up = some false)).length

/-- `thumbs_up_pct`: percentage of thumbs-up among thumbs-carrying votes,
`None` when no vote carries a thumbs signal. -/
def thumbsUpPct (rows : List VoteRecord) : Option ℚ :=
  let total := thumbsUpCount rows + thumbsDownCount rows
  if 0 < total then some ((thumbsUpCount rows : ℚ) / total * 100) else none

/-- The dispersion fields of one result row: the unrounded
`rating_stdev` and `agreement_score` floats and the `is_controversial`
flag, as computed by the loop body of `get_all_results`. -/
structure SongStats where
  rating_stdev : Option ℝ
  agreement_score : Option ℝ
  is_controversial : Prop

/-- The truthiness-guarded thumbs test of the `is_controversial`
condition: `thumbs_up_pct and 30 <= thumbs_up_pct <= 70`. -/
def pctMixed (pct : Option ℚ) : Prop :=
  match pct with
  | some p => ¬ p = 0 ∧ 30 ≤ p ∧ p ≤ 70
  | none => False

/-- The per-song dispersion computation (src/database.py lines 892-914):
when both rating averages are non-null and the row's total `vote_count` is
at least 2, variance `= E[X²] − E[X]²`; positive variance gives
`stdev = sqrt(variance)`, `agreement_score = max(0, 1 − stdev/4.5) × 100`
and the controversy test against the unrounded score and unrounded
thumbs percentage; otherwise stdev 0 with score 100. -/
noncomputable def songStats (rows : List VoteRecord) : SongStats :=
  match avgRating rows, avgRatingSq rows with
  | some m, some m2 =>
    if 2 ≤ rows.length then
      let v : ℚ := m2 - m ^ 2
      if 0 < v then
        let stdev : ℝ := Real.sqrt (v : ℝ)
        let score : ℝ := max 0 (1 - stdev / 4.5) * 100
        { rating_stdev := some stdev, agreement_score := some score,
          is_controversial := score < 50 ∧ pctMixed (thumbsUpPct rows) }
      else
        { rating_stdev := some 0, agreement_score := some 100,
          is_controversial := False }
    else
      { rating_stdev := none, agreement_score := none, is_controversial := False }
  | _, _ => { rating_stdev := none, agreement_score := none, is_controversial := False }

/-- The reported `agreement_score` field: `round(agreement_score, 0)`,
an integer value.  (Ties round half-up in this model; Python rounds
half-to-even, and no claim hinges on an exact half.) -/
noncomputable def agreementReported (rows : List VoteRecord) : Option ℤ :=
  (songStats rows).agreement_score.map round

/-- The reported `rating_stdev` field: `round(rating_stdev, 2)` when the
internal value is not `None`. -/
noncomputable def ratingStdevReported (rows : List VoteRecord) : Option ℝ :=
  (songStats rows).rating_stdev.map (fun x => ((round (x * 100) : ℤ) : ℝ) / 100)

/-- The variance expression `E[X²] − E[X]²` over a song's rated votes
(`0/0 = 0` junk value on no rated votes). -/
def varOf (rows : List VoteRecord) : ℚ :=
  ((ratingsOf rows).map (fun r => r * r)).sum / (ratingsOf rows).length -
    ((ratingsOf rows).sum / (ratingsOf rows).length) ^ 2

/-! ### Concrete scenario data used by the claim-level evaluations -/

/-- A concrete stand-in for the abstract md5 hex digest. -/
def md5Id : String → String := fun s => s

/-- A fixed clock with no parseable window settings. -/
def ctx0 : Ctx := ⟨0, fun _ => none⟩

/-- A plain non-admin request template (headers resolve to `9.9.9.9`). -/
def req0 : Request :=
  { remote_addr := "9.9.9.9", cf_connecting_ip := some "9.9.9.9",
    x_forwarded_for := none, session_admin := false, session_voter_id := none,
    session_block_access := fun _ => false, fresh_uuid := "uuid-1",
    body := none }

/-- Scenario for C1: one song, one block whose `voting_restriction` is
`"ip"` while the global setting is absent (default `"none"`). -/
def c1db : DB := ⟨[1], [⟨1, none, none, false, some "ip"⟩], [], []⟩

/-- C1's vote request: thumbs-up on song 1 inside block 1. -/
def c1req : Request := { req0 with body := some ⟨some true, none, some 1⟩ }

/-- Scenario for C2: one song, one password-protected block. -/
def c2db : DB := ⟨[1], [⟨1, some "pbkdf2-hash", none, false, none⟩], [], []⟩

/-- C2's vote request: same payload, no block password authentication in
the session (`session_block_access` is everywhere false). -/
def c2req : Request := { req0 with body := some ⟨some true, none, some 1⟩ }

/-- Scenario for C3's witness: global restriction `"ip"`, a one-time-use
block containing songs 1 and 2, and a prior vote by the same voter on
song 2 of that block. -/
def c3db : DB :=
  ⟨[1, 2], [⟨1, none, none, true, none⟩],
   [⟨2, some true, none, some "9.9.9.9", some 1⟩],
   [("voting_restriction", "ip")]⟩

/-- C3's vote request: thumbs-up on song 1 (zero prior votes) of block 1. -/
def c3req : Request := { req0 with body := some ⟨some true, none, some 1⟩ }

/-- Scenario for C4: one song, no blocks, no restriction, open window. -/
def c4db : DB := ⟨[1], [], [], []⟩

/-- C4's counterexample request: a rating of 5.5 and no thumbs signal. -/
def c4req : Request := { req0 with body := some ⟨none, some (11/2), none⟩ }

/-- C4 witness request: an admin session submitting the rating 0. -/
def c4wreq : Request :=
  { req0 with session_admin := true, body := some ⟨none, some 0, none⟩ }

/-- Scenario for C9: one song and a malformed body (no thumbs, no rating). -/
def c9db : DB := ⟨[1], [], [], []⟩

/-- C9's request carries an empty-signal payload. -/
def c9req : Request := { req0 with body := some ⟨none, none, none⟩ }

/-- Scenario for C8: global restriction `"ip"`, a request whose
`X-Forwarded-For` first entry differs from `remote_addr`. -/
def c8db : DB := ⟨[], [], [], [("voting_restriction", "ip")]⟩

/-- C8's request: no CF header, a forwarded header naming `1.2.3.4`, raw
connection address `9.9.9.9`. -/
def c8req : Request :=
  { req0 with cf_connecting_ip := none, x_forwarded_for := some "1.2.3.4" }

/-- C6's counterexample rows: one rated vote and one thumbs-only vote. -/
def c6rows : List VoteRecord :=
  [⟨1, none, some 5, none, none⟩, ⟨1, some true, none, none, none⟩]

/-- C7's counterexample rows: ratings `[1,3,5,6,6,8]` with a 3/3 thumbs
split (variance `185/36`, unrounded agreement score `≈ 49.62`). -/
def c7rows : List VoteRecord :=
  [⟨1, some true, some 1, none, none⟩, ⟨1, some true, some 3, none, none⟩,
   ⟨1, some true, some 5, none, none⟩, ⟨1, some false, some 6, none, none⟩,
   ⟨1, some false, some 6, none, none⟩, ⟨1, some false, some 8, none, none⟩]

/-- The singleton (or empty) rate-limiter dict holding `acc` for `ip`,
used to state the filling invariant of repeated `check` calls. -/
def soloVotes (ip : String) (acc : List ℤ) : List (String × List ℤ) :=
  if acc = [] then [] else [(ip, acc)]

/-- The concrete rejecting limiter state for C10's witness: thirty
in-window timestamps for one IP. -/
def c10st : RateLimiter := ⟨[("a", List.replicate 30 0)], 30, 300, 10000⟩

/-! ### Rate-limiter lemmas -/

lemma lookupIp_setIp_self (l : List (String × List ℤ)) (ip : String) (v : List ℤ) :
    lookupIp (setIp l ip v) ip = some v := by
  induction l with
  | nil => simp [setIp, lookupIp]
  | cons p rest ih =>
    obtain ⟨k, w⟩ := p
    by_cases hk : k = ip
    · simp [setIp, lookupIp, hk]
    · simp [setIp, lookupIp, hk, ih]

lemma lookupIp_setIp_other (l : List (String × List ℤ)) (ip ip2 : String) (v : List ℤ)
    (hne : ip2 ≠ ip) : lookupIp (setIp l ip v) ip2 = lookupIp l ip2 := by
  induction l with
  | nil => simp [setIp, lookupIp, hne.symm]
  | cons p rest ih =>
    obtain ⟨k, w⟩ := p
    by_cases hk : k = ip
    · subst hk
      simp [setIp, lookupIp, hne.symm]
    · simp [setIp, lookupIp, hk, ih]

lemma lookupIp_removeIp_other (l : List (String × List ℤ)) (ip ip2 : String)
    (hne : ip2 ≠ ip) : lookupIp (removeIp l ip) ip2 = lookupIp l ip2 := by
  induction l with
  | nil => simp [removeIp]
  | cons p rest ih =>
    obtain ⟨k, w⟩ := p
    by_cases hk : k = ip
    · subst hk
      simp [removeIp, lookupIp, hne.symm]
    · simp [removeIp, lookupIp, hk, ih]

lemma lookupIp_keyFilter (doomed : List String) (l : List (String × List ℤ)) (ip : String) :
    lookupIp (keyFilter doomed l) ip =
      if ip ∈ doomed then none else lookupIp l ip := by
  induction l with
  | nil => simp [keyFilter, lookupIp]
  | cons p rest ih =>
    obtain ⟨k, w⟩ := p
    by_cases hd : k ∈ doomed
    · rw [show keyFilter doomed ((k, w) :: rest) = keyFilter doomed rest from by
        simp [keyFilter, List.filter_cons, hd]]
      rw [ih]
      by_cases hkip : k = ip
      · subst hkip
        simp [hd, lookupIp]
      · simp [lookupIp, hkip]
    · rw [show keyFilter doomed ((k, w) :: rest) = (k, w) :: keyFilter doomed rest from by
        simp [keyFilter, List.filter_cons, hd]]
      by_cases hkip : k = ip
      · subst hkip
        simp [lookupIp, hd]
      · simp [lookupIp, hkip, ih]

lemma evictOldest_fields (st : RateLimiter) (c : ℕ) :
    (st.evictOldest c).max_votes = st.max_votes ∧
    (st.evictOldest c).window_secs = st.window_secs ∧
    (st.evictOldest c).max_ips = st.max_ips := by
  unfold RateLimiter.evictOldest
  split <;> exact ⟨rfl, rfl, rfl⟩

lemma lookupIp_evictOldest (st : RateLimiter) (c : ℕ) (ip : String) :
    lookupIp (st.evictOldest c).votes ip = lookupIp st.votes ip ∨
    lookupIp (st.evictOldest c).votes ip = none := by
  simp only [RateLimiter.evictOldest]
  split
  · exact Or.inl rfl
  · rw [lookupIp_keyFilter]
    split
    · exact Or.inr rfl
    · exact Or.inl rfl

lemma evictPhase_fields (st : RateLimiter) :
    (st.evictPhase).max_votes = st.max_votes ∧
    (st.evictPhase).window_secs = st.window_secs ∧
    (st.evictPhase).max_ips = st.max_ips := by
  unfold RateLimiter.evictPhase
  split
  · exact evictOldest_fields st _
  · exact ⟨rfl, rfl, rfl⟩

lemma lookupIp_evictPhase (st : RateLimiter) (ip : String) :
    lookupIp (st.evictPhase).votes ip = lookupIp st.votes ip ∨
    lookupIp (st.evictPhase).votes ip = none := by
  unfold RateLimiter.evictPhase
  split
  · exact lookupIp_evictOldest st _ ip
  · exact Or.inl rfl

lemma checkPruned_reject (st : RateLimiter) (ip : String) (now : ℤ)
    (h : (st.checkPruned ip now).1 = false) :
    ∃ l, lookupIp st.votes ip = some l ∧
      st.max_votes ≤ (pruneList l now st.window_secs).length ∧
      (st.checkPruned ip now).2.2.votes =
        setIp st.votes ip (pruneList l now st.window_secs) := by
  rcases hl : lookupIp st.votes ip with _ | l
  · exfalso
    simp [RateLimiter.checkPruned, hl] at h
  · rcases hp : pruneList l now st.window_secs with _ | ⟨t0, rest⟩
    · exfalso
      simp [RateLimiter.checkPruned, hl, hp] at h
    · by_cases hmax : st.max_votes ≤ rest.length + 1
      · refine ⟨l, rfl, ?_, ?_⟩
        · rw [hp]
          simpa using hmax
        · simp [RateLimiter.checkPruned, hl, hp, hmax]
      · exfalso
        simp [RateLimiter.checkPruned, hl, hp, hmax] at h

lemma checkPruned_allow (st : RateLimiter) (ip : String) (now : ℤ)
    (h : (st.checkPruned ip now).1 = true) :
    ∃ l, lookupIp (st.checkPruned ip now).2.2.votes ip = some (l ++ [now]) := by
  rcases hl : lookupIp st.votes ip with _ | l
  · exact ⟨[], by simp [RateLimiter.checkPruned, hl, lookupIp_setIp_self]⟩
  · rcases hp : pruneList l now st.window_secs with _ | ⟨t0, rest⟩
    · exact ⟨[], by simp [RateLimiter.checkPruned, hl, hp, lookupIp_setIp_self]⟩
    · by_cases hmax : st.max_votes ≤ rest.length + 1
      · exfalso
        simp [RateLimiter.checkPruned, hl, hp, hmax] at h
      · exact ⟨t0 :: rest, by simp [RateLimiter.checkPruned, hl, hp, hmax, lookupIp_setIp_self]⟩

lemma checkPruned_other (st : RateLimiter) (ip ip2 : String) (now : ℤ)
    (hne : ip2 ≠ ip) :
    lookupIp (st.checkPruned ip now).2.2.votes ip2 = lookupIp st.votes ip2 := by
  rcases hl : lookupIp st.votes ip with _ | l
  · simp [RateLimiter.checkPruned, hl, lookupIp_setIp_other _ _ _ _ hne]
  · rcases hp : pruneList l now st.window_secs with _ | ⟨t0, rest⟩
    · simp [RateLimiter.checkPruned, hl, hp, lookupIp_setIp_other _ _ _ _ hne,
        lookupIp_removeIp_other _ _ _ hne]
    · by_cases hmax : st.max_votes ≤ rest.length + 1
      · simp [RateLimiter.checkPruned, hl, hp, hmax, lookupIp_setIp_other _ _ _ _ hne]
      · simp [RateLimiter.checkPruned, hl, hp, hmax, lookupIp_setIp_other _ _ _ _ hne]

lemma check_allow_appends (st : RateLimiter) (ip : String) (now : ℤ)
    (h : (st.check ip now).1 = true) :
    ∃ l, lookupIp (st.check ip now).2.2.votes ip = some (l ++ [now]) :=
  checkPruned_allow st.evictPhase ip now h

/-! ### C5 machinery: filling a fresh limiter for one IP -/

lemma soloVotes_length_le (ip : String) (acc : List ℤ) :
    (soloVotes ip acc).length ≤ 1 := by
  unfold soloVotes
  split <;> simp

lemma evictPhase_solo (ip : String) (acc : List ℤ) :
    (RateLimiter.evictPhase ⟨soloVotes ip acc, 30, 300, 10000⟩) =
      ⟨soloVotes ip acc, 30, 300, 10000⟩ := by
  unfold RateLimiter.evictPhase
  split
  case isTrue hlt =>
    exfalso
    have h := soloVotes_length_le ip acc
    dsimp only at hlt
    omega
  case isFalse => rfl

lemma check_solo_step (ip : String) (acc : List ℤ) (t : ℤ)
    (hlen : acc.length < 30)
    (hin : ∀ x ∈ acc, t - x < 300) :
    RateLimiter.check ⟨soloVotes ip acc, 30, 300, 10000⟩ ip t =
      (true, 0, ⟨soloVotes ip (acc ++ [t]), 30, 300, 10000⟩) := by
  rw [RateLimiter.check, evictPhase_solo]
  rcases acc with _ | ⟨a, as⟩
  · simp [soloVotes, RateLimiter.checkPruned, lookupIp, setIp]
  · have hsv : soloVotes ip (a :: as) = [(ip, a :: as)] := by simp [soloVotes]
    have hprune : pruneList (a :: as) t 300 = a :: as := by
      unfold pruneList
      rw [List.filter_eq_self]
      intro x hx
      simpa using hin x hx
    have hlook : lookupIp [(ip, a :: as)] ip = some (a :: as) := by simp [lookupIp]
    have hmax : ¬ (30 ≤ as.length + 1) := by
      simp only [List.length_cons] at hlen
      omega
    simp [RateLimiter.checkPruned, hsv, hlook, hprune, hmax, setIp, soloVotes]

lemma runSeq_fill (ip : String) (ts : List ℤ) : ∀ acc : List ℤ,
    acc.length + ts.length ≤ 30 →
    (∀ x ∈ acc ++ ts, ∀ y ∈ acc ++ ts, y - x < 300) →
    runSeq ⟨soloVotes ip acc, 30, 300, 10000⟩ ip ts =
      (⟨soloVotes ip (acc ++ ts), 30, 300, 10000⟩, ts.map (fun _ => (true, 0))) := by
  induction ts with
  | nil => intro acc _ _; simp [runSeq]
  | cons t ts ih =>
    intro acc hlen hspan
    have hstep := check_solo_step ip acc t
      (by simp at hlen; omega)
      (fun x hx => hspan x (by simp [hx]) t (by simp))
    have htail := ih (acc ++ [t])
      (by simp at hlen ⊢; omega)
      (by
        intro x hx y hy
        apply hspan x _ y
        · simpa [List.append_assoc] using hy
        · simpa [List.append_assoc] using hx)
    simp only [runSeq, hstep]
    rw [htail]
    simp [List.append_assoc]

/-- C10: on a rejected `check`, the IP's entry is exactly its pruned old
entry (no new timestamp), and every other entry is unchanged or evicted. -/
theorem check_reject_frame (st : RateLimiter) (ip : String) (now : ℤ)
    (h : (st.check ip now).1 = false) :
    (∃ l, lookupIp st.votes ip = some l ∧
      lookupIp (st.check ip now).2.2.votes ip =
        some (pruneList l now st.window_secs) ∧
      st.max_votes ≤ (pruneList l now st.window_secs).length) ∧
    ∀ ip2, ip2 ≠ ip →
      lookupIp (st.check ip now).2.2.votes ip2 = lookupIp st.votes ip2 ∨
      lookupIp (st.check ip now).2.2.votes ip2 = none := by
  obtain ⟨l, hl, hmax, hvotes⟩ := checkPruned_reject st.evictPhase ip now h
  obtain ⟨hmv, hws, _⟩ := evictPhase_fields st
  constructor
  · refine ⟨l, ?_, ?_, ?_⟩
    · rcases lookupIp_evictPhase st ip with he | he
      · rw [← he]
        exact hl
      · rw [he] at hl
        exact absurd hl (by simp)
    · show lookupIp (st.check ip now).2.2.votes ip = _
      rw [RateLimiter.check] at *
      rw [hvotes, lookupIp_setIp_self, hws]
    · rw [← hws]
      rw [← hmv]
      exact hmax
  · intro ip2 hne
    rw [RateLimiter.check] at *
    rw [hvotes, lookupIp_setIp_other _ _ _ _ hne]
    rcases lookupIp_evictPhase st ip2 with he | he
    · exact Or.inl he
    · exact Or.inr he

lemma runSeq_append (st : RateLimiter) (ip : String) (l1 l2 : List ℤ) :
    runSeq st ip (l1 ++ l2) =
      ((runSeq (runSeq st ip l1).1 ip l2).1,
        (runSeq st ip l1).2 ++ (runSeq (runSeq st ip l1).1 ip l2).2) := by
  induction l1 generalizing st with
  | nil => simp [runSeq]
  | cons t l1 ih => simp [runSeq, ih]

/-- C5: from a fresh limiter, thirty checks within the 300-second window
are all allowed; the thirty-first within the window is rejected with
`retry_after = max 1 (300 − (t_31 − t_1))`, which lies in `(0, 300]`. -/
theorem rate_limit_window (ip : String) (t0 : ℤ) (mid : List ℤ) (tlast : ℤ)
    (hlen : mid.length = 29)
    (hsorted : List.Sorted (· ≤ ·) (t0 :: mid ++ [tlast]))
    (hspan : tlast - t0 < 300) :
    (runSeq vote_limiter ip (t0 :: mid ++ [tlast])).2 =
      (t0 :: mid).map (fun _ => ((true : Bool), (0 : ℤ))) ++
        [((false : Bool), max 1 (300 - (tlast - t0)))] ∧
    0 < max 1 (300 - (tlast - t0)) ∧
    max 1 (300 - (tlast - t0)) ≤ 300 := by
  have hpw := List.pairwise_cons.mp hsorted
  have hpw2 := (List.pairwise_append.mp hpw.2)
  have ht0le : ∀ x ∈ t0 :: mid, t0 ≤ x := by
    intro x hx
    rcases List.mem_cons.mp hx with rfl | hx
    · exact le_refl x
    · exact hpw.1 x (by simp [hx])
  have hletl : ∀ x ∈ t0 :: mid, x ≤ tlast := by
    intro x hx
    rcases List.mem_cons.mp hx with rfl | hx
    · exact hpw.1 tlast (by simp)
    · exact hpw2.2.2 x hx tlast (by simp)
  have hfill := runSeq_fill ip (t0 :: mid) []
    (by simp [hlen])
    (by
      intro x hx y hy
      simp only [List.nil_append] at hx hy
      have := ht0le x hx
      have := hletl y hy
      omega)
  have hvl : vote_limiter = ⟨soloVotes ip [], 30, 300, 10000⟩ := by
    simp [vote_limiter, mkVoteRateLimiter, soloVotes]
  have happ := runSeq_append vote_limiter ip (t0 :: mid) [tlast]
  have hfirst : runSeq vote_limiter ip (t0 :: mid) =
      (⟨soloVotes ip (t0 :: mid), 30, 300, 10000⟩,
        (t0 :: mid).map (fun _ => (true, 0))) := by
    rw [hvl]
    simpa using hfill
  have hsv : soloVotes ip (t0 :: mid) = [(ip, t0 :: mid)] := by simp [soloVotes]
  have hprune : pruneList (t0 :: mid) tlast 300 = t0 :: mid := by
    unfold pruneList
    rw [List.filter_eq_self]
    intro x hx
    have h1 := ht0le x hx
    have h2 := hletl x hx
    simp only [decide_eq_true_eq]
    omega
  have hlook : lookupIp [(ip, t0 :: mid)] ip = some (t0 :: mid) := by simp [lookupIp]
  have hmax : (30 : ℕ) ≤ mid.length + 1 := by omega
  have hlaststep : RateLimiter.check ⟨soloVotes ip (t0 :: mid), 30, 300, 10000⟩ ip tlast =
      (false, max 1 (300 - (tlast - t0)),
        ⟨setIp [(ip, t0 :: mid)] ip (t0 :: mid), 30, 300, 10000⟩) := by
    rw [RateLimiter.check, evictPhase_solo, hsv]
    simp [RateLimiter.checkPruned, hlook, hprune, hmax]
  have hd0 : 0 ≤ tlast - t0 := by
    have := hletl t0 (by simp)
    omega
  refine ⟨?_, ?_, ?_⟩
  · rw [show t0 :: mid ++ [tlast] = (t0 :: mid) ++ [tlast] from rfl] at *
    rw [happ, hfirst]
    simp [runSeq, hlaststep]
  · exact lt_of_lt_of_le one_pos (le_max_left _ _)
  · exact max_le (by norm_num) (by omega)

/-- C5 witness: thirty-one calls at time 0 from one IP. -/
theorem rate_limit_window_witness :
    (runSeq vote_limiter "1.2.3.4" ((0:ℤ) :: List.replicate 29 (0:ℤ) ++ [(0:ℤ)])).2 =
      ((0:ℤ) :: List.replicate 29 (0:ℤ)).map (fun _ => ((true : Bool), (0 : ℤ))) ++
        [((false : Bool), max 1 (300 - ((0:ℤ) - 0)))] ∧
    0 < max 1 ((300:ℤ) - (0 - 0)) ∧ max 1 ((300:ℤ) - (0 - 0)) ≤ 300 :=
  rate_limit_window "1.2.3.4" 0 (List.replicate 29 0) 0 (by decide) (by decide) (by decide)

/-- C10 witness: a rejected call against thirty stored timestamps. -/
theorem check_reject_frame_witness :
    (∃ l, lookupIp c10st.votes "a" = some l ∧
      lookupIp (c10st.check "a" 0).2.2.votes "a" = some (pruneList l 0 c10st.window_secs) ∧
      c10st.max_votes ≤ (pruneList l 0 c10st.window_secs).length) ∧
    ∀ ip2, ip2 ≠ "a" →
      lookupIp (c10st.check "a" 0).2.2.votes ip2 = lookupIp c10st.votes ip2 ∨
      lookupIp (c10st.check "a" 0).2.2.votes ip2 = none :=
  check_reject_frame c10st "a" 0 (by decide)

/-! ### Vote-endpoint theorems -/

/-- C1: evaluation of the endpoint at the failing input.  With the block's
`voting_restriction` set to `"ip"` and the global setting `"none"`, the
same client votes twice on the same song of the block: no voter identity
is derived (`get_voter_id` consults only the global setting), both votes
are accepted, and the duplicate is recorded. -/
theorem block_restriction_override_ignored :
    (vote md5Id ctx0 c1db vote_limiter c1req 1).outcome = .success ∧
    (vote md5Id ctx0 c1db vote_limiter c1req 1).db.votes =
      [⟨1, some true, none, none, some 1⟩] ∧
    (vote md5Id ctx0 (vote md5Id ctx0 c1db vote_limiter c1req 1).db
      (vote md5Id ctx0 c1db vote_limiter c1req 1).lim c1req 1).outcome = .success ∧
    (vote md5Id ctx0 (vote md5Id ctx0 c1db vote_limiter c1req 1).db
      (vote md5Id ctx0 c1db vote_limiter c1req 1).lim c1req 1).db.votes =
      [⟨1, some true, none, none, some 1⟩, ⟨1, some true, none, none, some 1⟩] := by
  decide

/-- C2 counterexample: an unauthenticated vote (no `block_access` session
flag) on a song of a password-protected, non-expired block is accepted and
appended to the ledger. -/
theorem password_block_vote_accepted_unauthenticated :
    c2db.blocks = [⟨1, some "pbkdf2-hash", none, false, none⟩] ∧
    c2req.session_block_access 1 = false ∧
    (vote md5Id ctx0 c2db vote_limiter c2req 1).outcome = .success ∧
    (vote md5Id ctx0 c2db vote_limiter c2req 1).db.votes =
      [⟨1, some true, none, none, some 1⟩] := by
  decide

/-- C2 amended: the vote endpoint never consults the block password or the
per-block session flag; an unauthenticated vote on a password-protected,
non-expired block passes all block gates and is decided only by the
duplicate checks. -/
theorem password_gate_not_enforced_on_votes (md5 : String → String) (ctx : Ctx)
    (db : DB) (lim : RateLimiter) (req : Request) (song_id : ℕ)
    (data : VotePayload) (bid : ℕ) (b : VoteBlock) (pw : String)
    (hadmin : req.session_admin = false)
    (hrl : (lim.check (client_ip req) ctx.now).1 = true)
    (hsong : song_id ∈ db.songs)
    (hbody : req.body = some data)
    (hsig : ¬ (data.thumbs_up = none ∧ data.rating = none))
    (hrat : ratingInvalid data.rating = false)
    (hbid : data.block_id = some bid) (hbid0 : bid ≠ 0)
    (hfind : get_vote_block_by_id db bid = some b)
    (hpw : b.password_hash = some pw)
    (hexp : is_block_expired ctx.now b = false)
    (hauth : req.session_block_access b.id = false) :
    (vote md5 ctx db lim req song_id).outcome = .success ∨
    (vote md5 ctx db lim req song_id).outcome = .alreadyVotedBlock ∨
    (vote md5 ctx db lim req song_id).outcome = .alreadyVotedSong := by
  rw [vote]
  rw [hadmin]
  simp only [Bool.false_eq_true, if_false, hrl, if_true]
  rw [voteChecked]
  rw [if_pos hsong, hbody]
  simp only [hsig, if_false, hrat, Bool.false_eq_true, hbid]
  rw [if_neg hbid0, hfind]
  simp only [hexp, Bool.false_eq_true, if_false]
  rw [voteWindow]
  rw [hadmin]
  simp only [Bool.not_false, Bool.true_and, hbid, idTruthy]
  rw [if_neg (by simp [hbid0])]
  rw [voteRestrict, hadmin]
  simp only [Bool.false_eq_true, if_false]
  split
  all_goals split
  all_goals try exact Or.inr (Or.inl rfl)
  all_goals split
  all_goals try exact Or.inr (Or.inr rfl)
  all_goals exact Or.inl rfl

/-- C2 amended witness. -/
theorem password_gate_not_enforced_on_votes_witness :
    (vote md5Id ctx0 c2db vote_limiter c2req 1).outcome = .success ∨
    (vote md5Id ctx0 c2db vote_limiter c2req 1).outcome = .alreadyVotedBlock ∨
    (vote md5Id ctx0 c2db vote_limiter c2req 1).outcome = .alreadyVotedSong :=
  password_gate_not_enforced_on_votes md5Id ctx0 c2db vote_limiter c2req 1
    ⟨some true, none, some 1⟩ 1 ⟨1, some "pbkdf2-hash", none, false, none⟩
    "pbkdf2-hash" (by decide) (by decide) (by decide) (by decide) (by decide)
    (by decide) (by decide) (by decide) (by decide) (by decide) (by decide)
    (by decide)

/-- C3: a non-admin vote with a truthy voter identity on a one-time-use,
non-expired block is rejected block-wide when the voter has any prior vote
in the block, before the per-song duplicate check is consulted, and the
ledger is unchanged. -/
theorem one_time_use_block_wide_first (md5 : String → String) (ctx : Ctx)
    (db : DB) (lim : RateLimiter) (req : Request) (song_id : ℕ)
    (data : VotePayload) (bid : ℕ) (b : VoteBlock) (v : String)
    (hadmin : req.session_admin = false)
    (hrl : (lim.check (client_ip req) ctx.now).1 = true)
    (hsong : song_id ∈ db.songs)
    (hbody : req.body = some data)
    (hsig : ¬ (data.thumbs_up = none ∧ data.rating = none))
    (hrat : ratingInvalid data.rating = false)
    (hbid : data.block_id = some bid) (hbid0 : bid ≠ 0)
    (hfind : get_vote_block_by_id db bid = some b)
    (hexp : is_block_expired ctx.now b = false)
    (honetime : b.one_time_use = true)
    (hres : effective_restriction db (some b) ≠ "none")
    (hvid : (get_voter_id md5 db req).1 = some v) (hv : v ≠ "")
    (hdup : has_voted_in_block db.votes (some v) data.block_id = true) :
    (vote md5 ctx db lim req song_id).outcome = .alreadyVotedBlock ∧
    (vote md5 ctx db lim req song_id).db = db := by
  have hst : strTruthy (some v) = true := by simp [strTruthy, hv]
  rw [vote, hadmin]
  simp only [Bool.false_eq_true, if_false, hrl, if_true]
  rw [voteChecked, if_pos hsong, hbody]
  simp only [hsig, if_false, hrat, Bool.false_eq_true, hbid]
  rw [if_neg hbid0, hfind]
  simp only [hexp, Bool.false_eq_true, if_false]
  rw [voteWindow, hadmin]
  simp only [Bool.not_false, Bool.true_and, hbid, idTruthy]
  rw [if_neg (by simp [hbid0])]
  rw [voteRestrict, hadmin]
  simp only [Bool.false_eq_true, if_false]
  rw [if_pos hres, hvid]
  simp only [blockOneTime, honetime, hst, hbid, Bool.true_and, Bool.and_true]
  rw [hbid] at hdup
  rw [if_pos (by simp [hdup])]
  exact ⟨rfl, rfl⟩

/-- C3 witness: the voter already voted on song 2 of one-time-use block 1;
the attempt on song 1 (zero prior votes) is rejected block-wide. -/
theorem one_time_use_block_wide_first_witness :
    (vote md5Id ctx0 c3db vote_limiter c3req 1).outcome = .alreadyVotedBlock ∧
    (vote md5Id ctx0 c3db vote_limiter c3req 1).db = c3db :=
  one_time_use_block_wide_first md5Id ctx0 c3db vote_limiter c3req 1
    ⟨some true, none, some 1⟩ 1 ⟨1, none, none, true, none⟩ "9.9.9.9"
    (by decide) (by decide) (by decide) (by decide) (by decide) (by decide)
    (by decide) (by decide) (by decide) (by decide) (by decide) (by decide)
    (by decide) (by decide) (by decide)

/-- C9 counterexample: a malformed non-admin vote (no thumbs, no rating) is
rejected with the validation error, yet the rate limiter has recorded a new
timestamp for the client — the rejection is not free of side effects. -/
theorem malformed_vote_records_rate_limit_timestamp :
    (vote md5Id ctx0 c9db vote_limiter c9req 1).outcome = .missingSignal ∧
    (vote md5Id ctx0 c9db vote_limiter c9req 1).db = c9db ∧
    vote_limiter.votes = [] ∧
    (vote md5Id ctx0 c9db vote_limiter c9req 1).lim.votes = [("9.9.9.9", [0])] := by
  decide

/-- C9 amended: a malformed non-admin payload is rejected by validation
with no vote appended, but only after the rate limiter has admitted the
request and appended the current timestamp for the client IP. -/
theorem validation_rejects_after_rate_limit (md5 : String → String) (ctx : Ctx)
    (db : DB) (lim : RateLimiter) (req : Request) (song_id : ℕ)
    (data : VotePayload)
    (hadmin : req.session_admin = false)
    (hrl : (lim.check (client_ip req) ctx.now).1 = true)
    (hsong : song_id ∈ db.songs)
    (hbody : req.body = some data)
    (hmal : (data.thumbs_up = none ∧ data.rating = none) ∨
      ratingInvalid data.rating = true) :
    ((vote md5 ctx db lim req song_id).outcome = .missingSignal ∨
     (vote md5 ctx db lim req song_id).outcome = .badRating) ∧
    (vote md5 ctx db lim req song_id).db = db ∧
    (vote md5 ctx db lim req song_id).lim = (lim.check (client_ip req) ctx.now).2.2 ∧
    ∃ l, lookupIp (lim.check (client_ip req) ctx.now).2.2.votes (client_ip req) =
      some (l ++ [ctx.now]) := by
  have happ := check_allow_appends lim (client_ip req) ctx.now hrl
  rw [vote, hadmin]
  simp only [Bool.false_eq_true, if_false, hrl, if_true]
  rw [voteChecked, if_pos hsong, hbody]
  dsimp only
  rcases hmal with ⟨h1, h2⟩ | hbadr
  · rw [if_pos ⟨h1, h2⟩]
    refine ⟨?_, ?_, ?_, happ⟩ <;> simp
  · have hner : ¬ (data.thumbs_up = none ∧ data.rating = none) := by
      rintro ⟨-, h2⟩
      rw [h2] at hbadr
      simp [ratingInvalid] at hbadr
    rw [if_neg hner]
    simp only [hbadr, if_true]
    refine ⟨?_, ?_, ?_, happ⟩ <;> simp

/-- C9 amended witness. -/
theorem validation_rejects_after_rate_limit_witness :
    ((vote md5Id ctx0 c9db vote_limiter c9req 1).outcome = .missingSignal ∨
     (vote md5Id ctx0 c9db vote_limiter c9req 1).outcome = .badRating) ∧
    (vote md5Id ctx0 c9db vote_limiter c9req 1).db = c9db ∧
    (vote md5Id ctx0 c9db vote_limiter c9req 1).lim =
      (vote_limiter.check (client_ip c9req) ctx0.now).2.2 ∧
    ∃ l, lookupIp (vote_limiter.check (client_ip c9req) ctx0.now).2.2.votes
      (client_ip c9req) = some (l ++ [ctx0.now]) :=
  validation_rejects_after_rate_limit md5Id ctx0 c9db vote_limiter c9req 1
    ⟨none, none, none⟩ (by decide) (by decide) (by decide) (by decide)
    (Or.inl ⟨rfl, rfl⟩)

/-- C8 counterexample: under global restriction `"ip"`, a request whose
forwarded-for header names `1.2.3.4` but whose connection address is
`9.9.9.9` gets its voter identity from the connection address, not from
the header entry. -/
theorem voter_id_ignores_forwarded_header :
    (get_voter_id md5Id c8db c8req).1 = some c8req.remote_addr ∧
    c8req.remote_addr = "9.9.9.9" ∧
    c8req.x_forwarded_for = some "1.2.3.4" ∧
    md5Id "1.2.3.4" = "1.2.3.4" ∧
    ("9.9.9.9" : String) ≠ "1.2.3.4" := by
  decide

/-- C8 amended: under restriction mode `"ip"`, the voter identity is the
md5 digest of `request.remote_addr`, independent of the proxy headers;
the header-preferring resolution applies only to the rate-limit client
IP. -/
theorem voter_id_from_remote_addr (md5 : String → String) (db : DB) (req : Request)
    (h : get_setting db "voting_restriction" "none" = "ip") :
    (get_voter_id md5 db req).1 = some (md5 req.remote_addr) ∧
    ∀ cf xff, (get_voter_id md5 db
      { req with cf_connecting_ip := cf, x_forwarded_for := xff }).1 =
        some (md5 req.remote_addr) := by
  constructor
  · rw [get_voter_id, h]
    simp
  · intro cf xff
    rw [get_voter_id, h]
    simp

/-- C8 amended witness. -/
theorem voter_id_from_remote_addr_witness :
    (get_voter_id md5Id c8db c8req).1 = some (md5Id c8req.remote_addr) ∧
    ∀ cf xff, (get_voter_id md5Id c8db
      { c8req with cf_connecting_ip := cf, x_forwarded_for := xff }).1 =
        some (md5Id c8req.remote_addr) :=
  voter_id_from_remote_addr md5Id c8db c8req (by decide)

/-- C4 counterexample: the non-integer rating 5.5 passes validation and is
recorded — the endpoint checks only `1 ≤ r ≤ 10`, never integrality. -/
theorem rating_five_point_five_accepted :
    (vote md5Id ctx0 c4db vote_limiter c4req 1).outcome = .success ∧
    (vote md5Id ctx0 c4db vote_limiter c4req 1).db.votes =
      [⟨1, none, some (11/2), none, none⟩] := by
  norm_num [vote, voteChecked, voteWindow, voteRestrict, ratingInvalid, client_ip,
    strOr, firstForwarded, RateLimiter.check, RateLimiter.evictPhase,
    RateLimiter.checkPruned, lookupIp, setIp, pruneList, get_setting,
    get_vote_block_by_id, effective_restriction, get_voter_id, strTruthy, idTruthy,
    blockOneTime, has_voted, has_voted_in_block, add_vote, window_not_started,
    window_ended, vote_limiter, mkVoteRateLimiter, c4db, c4req, req0, ctx0, md5Id]
  simp

/-- C4 amended: a vote carrying rating `r` is rejected by validation iff
`r < 1` or `r > 10` — there is no integrality check — and a rejected vote
leaves the ledger untouched while an accepted one appends the record.
(Stated for an admin session so the later gates are inert.) -/
theorem rating_range_validation (md5 : String → String) (ctx : Ctx) (db : DB)
    (lim : RateLimiter) (req : Request) (song_id : ℕ) (data : VotePayload) (r : ℚ)
    (hadmin : req.session_admin = true)
    (hsong : song_id ∈ db.songs)
    (hbody : req.body = some data)
    (hrat : data.rating = some r)
    (hbid : data.block_id = none) :
    (vote md5 ctx db lim req song_id).outcome =
      (if r < 1 ∨ 10 < r then .badRating else .success) ∧
    ((r < 1 ∨ 10 < r) → (vote md5 ctx db lim req song_id).db = db) ∧
    (¬ (r < 1 ∨ 10 < r) → (vote md5 ctx db lim req song_id).db.votes =
      db.votes ++ [⟨song_id, data.thumbs_up, some r, none, none⟩]) := by
  have hsig : ¬ (data.thumbs_up = none ∧ data.rating = none) := by
    rintro ⟨-, h⟩
    rw [hrat] at h
    exact Option.noConfusion h
  rw [vote, hadmin]
  simp only [if_true]
  rw [voteChecked, if_pos hsong, hbody]
  dsimp only
  rw [if_neg hsig]
  by_cases hr : r < 1 ∨ 10 < r
  · have hri : ratingInvalid data.rating = true := by
      rw [hrat]
      simp [ratingInvalid, hr]
    simp only [hri, if_true]
    exact ⟨by rw [if_pos hr], by simp, by simp [hr]⟩
  · have hri : ratingInvalid data.rating = false := by
      rw [hrat]
      simp [ratingInvalid, hr]
    simp only [hri, Bool.false_eq_true, if_false]
    rw [hbid]
    dsimp only
    rw [voteWindow, voteRestrict, hadmin]
    simp only [Bool.not_true, Bool.false_and, Bool.false_eq_true, if_false, if_true]
    refine ⟨by rw [if_neg hr], fun h => absurd h hr, fun _ => ?_⟩
    rw [add_vote, hrat, hbid]

/-- C4 amended witness: the rating 0 is rejected with no vote recorded. -/
theorem rating_range_validation_witness :
    (vote md5Id ctx0 c4db vote_limiter c4wreq 1).outcome =
      (if (0:ℚ) < 1 ∨ 10 < (0:ℚ) then VoteOutcome.badRating else .success) ∧
    (((0:ℚ) < 1 ∨ 10 < (0:ℚ)) → (vote md5Id ctx0 c4db vote_limiter c4wreq 1).db = c4db) ∧
    (¬ ((0:ℚ) < 1 ∨ 10 < (0:ℚ)) →
      (vote md5Id ctx0 c4db vote_limiter c4wreq 1).db.votes =
        c4db.votes ++ [⟨1, none, some 0, none, none⟩]) :=
  rating_range_validation md5Id ctx0 c4db vote_limiter c4wreq 1 ⟨none, some 0, none⟩ 0
    (by decide) (by decide) (by decide) (by decide) (by decide)

/-! ### Aggregation lemmas -/

lemma avgRating_of_ne (rows : List VoteRecord) (h : ratingsOf rows ≠ []) :
    avgRating rows = some ((ratingsOf rows).sum / (ratingsOf rows).length) := by
  rw [avgRating, if_neg h]

lemma avgRatingSq_of_ne (rows : List VoteRecord) (h : ratingsOf rows ≠ []) :
    avgRatingSq rows =
      some (((ratingsOf rows).map (fun r => r * r)).sum / (ratingsOf rows).length) := by
  rw [avgRatingSq, if_neg h]

lemma songStats_of_no_ratings (rows : List VoteRecord) (h : ratingsOf rows = []) :
    songStats rows = ⟨none, none, False⟩ := by
  rw [songStats, avgRating, if_pos h]

lemma songStats_of_short (rows : List VoteRecord) (h : ¬ 2 ≤ rows.length) :
    songStats rows = ⟨none, none, False⟩ := by
  by_cases hr : ratingsOf rows = []
  · exact songStats_of_no_ratings rows hr
  · rw [songStats, avgRating_of_ne rows hr, avgRatingSq_of_ne rows hr]
    simp only [if_neg h]

lemma songStats_pos (rows : List VoteRecord) (m m2 : ℚ)
    (hm : avgRating rows = some m) (hm2 : avgRatingSq rows = some m2)
    (hlen : 2 ≤ rows.length) (hv : 0 < m2 - m ^ 2) :
    songStats rows =
      ⟨some (Real.sqrt ((m2 - m ^ 2 : ℚ) : ℝ)),
       some (max 0 (1 - Real.sqrt ((m2 - m ^ 2 : ℚ) : ℝ) / 4.5) * 100),
       max 0 (1 - Real.sqrt ((m2 - m ^ 2 : ℚ) : ℝ) / 4.5) * 100 < 50 ∧
         pctMixed (thumbsUpPct rows)⟩ := by
  rw [songStats, hm, hm2]
  simp only [if_pos hlen, if_pos hv]

lemma songStats_zero (rows : List VoteRecord) (m m2 : ℚ)
    (hm : avgRating rows = some m) (hm2 : avgRatingSq rows = some m2)
    (hlen : 2 ≤ rows.length) (hv : ¬ 0 < m2 - m ^ 2) :
    songStats rows = ⟨some 0, some 100, False⟩ := by
  rw [songStats, hm, hm2]
  simp only [if_pos hlen, if_neg hv]

lemma varOf_eq (rows : List VoteRecord) :
    varOf rows =
      ((ratingsOf rows).map (fun r => r * r)).sum / (ratingsOf rows).length -
        ((ratingsOf rows).sum / (ratingsOf rows).length) ^ 2 := rfl

/-- The unrounded agreement score is below 50 exactly when the variance
exceeds `(4.5/2)² = 81/16`. -/
lemma score_lt_50_iff (v : ℚ) (hv : 0 < v) :
    max 0 (1 - Real.sqrt ((v : ℚ) : ℝ) / 4.5) * 100 < 50 ↔ 81/16 < v := by
  have hs0 : (0:ℝ) ≤ Real.sqrt ((v : ℚ) : ℝ) := Real.sqrt_nonneg _
  have hvr : (0:ℝ) ≤ ((v : ℚ) : ℝ) := by exact_mod_cast hv.le
  have hsq : Real.sqrt ((v : ℚ) : ℝ) ^ 2 = ((v : ℚ) : ℝ) := Real.sq_sqrt hvr
  have hcast : ((81/16 : ℚ) < v) ↔ ((81/16 : ℝ) < ((v : ℚ) : ℝ)) := by
    rw [show ((81:ℝ)/16) = (((81/16 : ℚ) : ℚ) : ℝ) from by push_cast; ring]
    exact Rat.cast_lt.symm
  rw [hcast]
  have h45 : (4.5 : ℝ) = 9/2 := by norm_num
  rw [h45]
  set s : ℝ := Real.sqrt ((v : ℚ) : ℝ) with hsdef
  constructor
  · intro h
    have h1 : (1 - s / (9/2)) * 100 < 50 := by
      have := le_max_right (0:ℝ) (1 - s / (9/2))
      nlinarith
    have h2 : (9/4 : ℝ) < s := by nlinarith
    nlinarith
  · intro h3
    have h2 : (9/4 : ℝ) < s := by nlinarith
    have h1 : max 0 (1 - s / (9/2)) < 1/2 := by
      rw [max_lt_iff]
      constructor <;> nlinarith
    nlinarith [le_max_left (0:ℝ) (1 - s / (9/2))]

/-- C6 counterexample: two vote rows, only one rated — `rating_stdev` is
reported as 0, not null. -/
theorem stdev_zero_with_one_rated_vote :
    (songStats c6rows).rating_stdev = some 0 ∧
    ratingStdevReported c6rows = some 0 ∧
    (ratingsOf c6rows).length = 1 ∧ c6rows.length = 2 := by
  have hr6 : ratingsOf c6rows = [5] := by simp [ratingsOf, c6rows]
  have hm : avgRating c6rows = some 5 := by
    rw [avgRating, hr6]
    norm_num
  have hm2 : avgRatingSq c6rows = some 25 := by
    rw [avgRatingSq, hr6]
    norm_num
  have hz := songStats_zero c6rows 5 25 hm hm2 (by norm_num [c6rows]) (by norm_num)
  refine ⟨by rw [hz], ?_, by rw [hr6]; rfl, by norm_num [c6rows]⟩
  rw [ratingStdevReported, hz]
  norm_num

/-- C6 amended: `rating_stdev` is non-null iff the song has at least two
matched vote rows and at least one carries a rating; then non-positive
variance is clamped to exactly 0, else the stdev is `sqrt(variance)` with
`variance = E[X²] − E[X]²` over the rated rows. -/
theorem rating_stdev_characterization (rows : List VoteRecord) :
    (songStats rows).rating_stdev =
      if 2 ≤ rows.length ∧ ratingsOf rows ≠ [] then
        (if varOf rows ≤ 0 then some (0:ℝ) else some (Real.sqrt ((varOf rows : ℚ) : ℝ)))
      else none := by
  by_cases hr : ratingsOf rows = []
  · rw [songStats_of_no_ratings rows hr, if_neg (by simp [hr])]
  · by_cases h2 : 2 ≤ rows.length
    · have hm := avgRating_of_ne rows hr
      have hm2 := avgRatingSq_of_ne rows hr
      have hvar : varOf rows =
          ((ratingsOf rows).map (fun r => r * r)).sum / (ratingsOf rows).length -
            ((ratingsOf rows).sum / (ratingsOf rows).length) ^ 2 := rfl
      by_cases hv : varOf rows ≤ 0
      · have hnv : ¬ (0 : ℚ) <
            ((ratingsOf rows).map (fun r => r * r)).sum / (ratingsOf rows).length -
              ((ratingsOf rows).sum / (ratingsOf rows).length) ^ 2 := by
          rw [← hvar]
          linarith
        rw [songStats_zero rows _ _ hm hm2 h2 hnv, if_pos ⟨h2, hr⟩, if_pos hv]
      · have hpv : (0 : ℚ) <
            ((ratingsOf rows).map (fun r => r * r)).sum / (ratingsOf rows).length -
              ((ratingsOf rows).sum / (ratingsOf rows).length) ^ 2 := by
          rw [← hvar]
          linarith [not_le.mp hv]
        rw [songStats_pos rows _ _ hm hm2 h2 hpv, if_pos ⟨h2, hr⟩, if_neg hv]
        rfl
    · rw [songStats_of_short rows h2, if_neg (by simp [h2])]

lemma round_score_185_36 :
    round (max 0 (1 - Real.sqrt (((185/36 : ℚ)) : ℝ) / 4.5) * 100) = 50 := by
  have hc : (((185/36 : ℚ)) : ℝ) = 185/36 := by norm_num
  rw [hc]
  have hs0 : (0:ℝ) ≤ Real.sqrt ((185:ℝ)/36) := Real.sqrt_nonneg _
  have hsq : Real.sqrt ((185:ℝ)/36) ^ 2 = (185:ℝ)/36 := Real.sq_sqrt (by norm_num)
  have h45 : (4.5:ℝ) = 9/2 := by norm_num
  rw [h45]
  set s : ℝ := Real.sqrt ((185:ℝ)/36) with hsdef
  have h1 : s ≤ 2.2725 := by nlinarith
  have h2 : (9/4:ℝ) < s := by nlinarith
  have hx0 : (0:ℝ) ≤ 1 - s/(9/2) := by nlinarith
  rw [max_eq_right hx0, round_eq, Int.floor_eq_iff]
  constructor
  · push_cast
    nlinarith
  · push_cast
    nlinarith

/-- C7 counterexample: for ratings `[1,3,5,6,6,8]` with a 3/3 thumbs split
the unrounded agreement score is `≈ 49.62`, so `is_controversial` is set,
yet the reported, rounded `agreement_score` is exactly 50 — refuting
"is_controversial iff agreement_score < 50" for the reported value. -/
theorem controversial_with_reported_score_50 :
    (songStats c7rows).is_controversial ∧ agreementReported c7rows = some 50 := by
  have hr7 : ratingsOf c7rows = [1, 3, 5, 6, 6, 8] := by simp [ratingsOf, c7rows]
  have hm : avgRating c7rows = some (29/6) := by
    rw [avgRating, hr7, if_neg (by simp)]
    norm_num
  have hm2 : avgRatingSq c7rows = some (57/2) := by
    rw [avgRatingSq, hr7, if_neg (by simp)]
    norm_num
  have hlen : 2 ≤ c7rows.length := by norm_num [c7rows]
  have hv : (0:ℚ) < 57/2 - (29/6)^2 := by norm_num
  have hveq : (57/2 - (29/6)^2 : ℚ) = 185/36 := by norm_num
  have hpct : thumbsUpPct c7rows = some 50 := by
    have hup : thumbsUpCount c7rows = 3 := by simp [thumbsUpCount, c7rows]
    have hdn : thumbsDownCount c7rows = 3 := by simp [thumbsDownCount, c7rows]
    rw [thumbsUpPct]
    rw [hup, hdn]
    norm_num
  have hss := songStats_pos c7rows _ _ hm hm2 hlen hv
  rw [hveq] at hss
  constructor
  · rw [hss]
    refine ⟨(score_lt_50_iff (185/36) (by norm_num)).mpr (by norm_num), ?_⟩
    rw [hpct]
    norm_num [pctMixed]
  · rw [agreementReported, hss]
    show some (round (max 0 (1 - Real.sqrt (((185/36 : ℚ)) : ℝ) / 4.5) * 100)) = some 50
    rw [round_score_185_36]

/-- C7 amended: `is_controversial` is set iff the dispersion fields are
computed with variance above `(4.5/2)² = 81/16` (equivalently, the
unrounded agreement score is below 50) and the unrounded thumbs-up
percentage is truthy and within `[30, 70]`; all-equal ratings give stdev 0,
score 100 and no controversy flag, and songs with no thumbs signal are
never flagged. -/
theorem is_controversial_characterization (rows : List VoteRecord) :
    ((songStats rows).is_controversial ↔
      (2 ≤ rows.length ∧ ratingsOf rows ≠ [] ∧ 81/16 < varOf rows ∧
        pctMixed (thumbsUpPct rows))) ∧
    (thumbsUpPct rows = none → ¬ (songStats rows).is_controversial) ∧
    (∀ q : ℚ, 2 ≤ rows.length → ratingsOf rows ≠ [] →
      (∀ x ∈ ratingsOf rows, x = q) →
      (songStats rows).rating_stdev = some 0 ∧
      (songStats rows).agreement_score = some 100 ∧
      ¬ (songStats rows).is_controversial) := by
  have main : (songStats rows).is_controversial ↔
      (2 ≤ rows.length ∧ ratingsOf rows ≠ [] ∧ 81/16 < varOf rows ∧
        pctMixed (thumbsUpPct rows)) := by
    by_cases hr : ratingsOf rows = []
    · rw [songStats_of_no_ratings rows hr]
      simp [hr]
    · by_cases h2 : 2 ≤ rows.length
      · have hm := avgRating_of_ne rows hr
        have hm2 := avgRatingSq_of_ne rows hr
        by_cases hv : 0 < varOf rows
        · have hpv : (0:ℚ) <
              ((ratingsOf rows).map (fun r => r * r)).sum / (ratingsOf rows).length -
                ((ratingsOf rows).sum / (ratingsOf rows).length) ^ 2 := hv
          rw [songStats_pos rows _ _ hm hm2 h2 hpv]
          have hs := score_lt_50_iff (varOf rows) hv
          constructor
          · rintro ⟨ha, hb⟩
            exact ⟨h2, hr, hs.mp ha, hb⟩
          · rintro ⟨-, -, hc, hb⟩
            exact ⟨hs.mpr hc, hb⟩
        · have hnv : ¬ (0:ℚ) <
              ((ratingsOf rows).map (fun r => r * r)).sum / (ratingsOf rows).length -
                ((ratingsOf rows).sum / (ratingsOf rows).length) ^ 2 := hv
          rw [songStats_zero rows _ _ hm hm2 h2 hnv]
          constructor
          · exact False.elim
          · rintro ⟨-, -, hc, -⟩
            exact absurd hc (by linarith [not_lt.mp hv])
      · rw [songStats_of_short rows h2]
        simp [h2]
  refine ⟨main, ?_, ?_⟩
  · intro hn hcontra
    have hx := main.mp hcontra
    rw [hn] at hx
    exact hx.2.2.2
  · intro q h2 hr hall
    have hm := avgRating_of_ne rows hr
    have hm2 := avgRatingSq_of_ne rows hr
    have hlenpos : 0 < (ratingsOf rows).length := List.length_pos.mpr hr
    have hlen0 : ((ratingsOf rows).length : ℚ) ≠ 0 := by
      exact_mod_cast Nat.pos_iff_ne_zero.mp hlenpos
    have hsum : (ratingsOf rows).sum = ((ratingsOf rows).length : ℚ) * q := by
      rw [List.sum_eq_card_nsmul (ratingsOf rows) q hall]
      simp [nsmul_eq_mul]
    have hsumsq : ((ratingsOf rows).map (fun r => r * r)).sum =
        ((ratingsOf rows).length : ℚ) * (q * q) := by
      rw [List.sum_eq_card_nsmul ((ratingsOf rows).map (fun r => r * r)) (q * q) ?_]
      · simp [nsmul_eq_mul]
      · intro x hx
        obtain ⟨r, hrmem, rfl⟩ := List.mem_map.mp hx
        rw [hall r hrmem]
    have hzero :
        ((ratingsOf rows).map (fun r => r * r)).sum / (ratingsOf rows).length -
          ((ratingsOf rows).sum / (ratingsOf rows).length) ^ 2 = 0 := by
      rw [hsum, hsumsq]
      field_simp
      ring
    have hnv : ¬ (0:ℚ) <
        ((ratingsOf rows).map (fun r => r * r)).sum / (ratingsOf rows).length -
          ((ratingsOf rows).sum / (ratingsOf rows).length) ^ 2 := by
      rw [hzero]
      exact lt_irrefl 0
    rw [songStats_zero rows _ _ hm hm2 h2 hnv]
    exact ⟨rfl, rfl, fun h => h⟩

end SongVoter
